import Mathlib

/-!
# The `package-buildpack` command of `internal/commands/package_buildpack.go`

A shallow embedding of the command's flag validation and of the function
literal that `PackageBuildpack` installs as the command's `RunE` handler.

* Go `error` values are `Option Error` (`none` is `nil`); `Error` has the three
  shapes of error value of `github.com/pkg/errors` that `errors.Errorf` and
  `errors.Wrap`, the two functions the file calls, build.
* The collaborators `PackageConfigReader` and `BuildpackPackager` are
  interfaces, so they are arbitrary state-passing functions over a state type
  `σ` they own; the descriptor type `pubbldpkg.Config` and the context type are
  type parameters.
* Everything the handler does to the outside (logger lines, collaborator
  calls) is recorded, in order, in a trace of `Event`s.
* `style.Symbol` lives in another package and is a parameter of the handler.
* `logError`, to which `PackageBuildpack` passes the function literal, is
  declared in another file of the package; it is not embedded, and every
  theorem below is about the function literal of lines 40-72 itself.
* `cobra.ExactValidArgs(1)` lets the handler run on one positional argument
  only; the handler is nevertheless defined on every argument list, the index
  expression `args[0]` panicking on the empty one.
-/

namespace Commands

/-! ## Errors (`github.com/pkg/errors`) -/

/-- An error value: `fundamental` is what `errors.Errorf` returns (a message),
`withMessage` pairs a cause with a context message, and `withStack` is the
layer that records the call stack (not modelled) around another error. -/
inductive Error where
  | fundamental (msg : String)
  | withMessage (cause : Error) (msg : String)
  | withStack (error : Error)
deriving DecidableEq, Repr

/-- The `Error()` method (the name `Error.Error` is not available): a
`withMessage` prints its context, a colon, then its cause; a `withStack` prints
the error it holds. -/
def Error.message : Error → String
  | .fundamental msg => msg
  | .withMessage cause msg => msg ++ ": " ++ cause.message
  | .withStack error => error.message

/-- The `Cause()` method, which a `fundamental` does not have: a `withMessage`
gives its cause, a `withStack` gives the error it holds. -/
def Error.cause : Error → Option Error
  | .fundamental _ => none
  | .withMessage cause _ => some cause
  | .withStack error => some error

/-- The function `errors.Errorf`, used in this file without format verbs. -/
def errors.Errorf (format : String) : Error := .fundamental format

/-- The function `errors.Wrap` on a non-nil error: a `withMessage` of the error
and the message, inside a `withStack`. -/
def errors.Wrap (err : Error) (message : String) : Error :=
  .withStack (.withMessage err message)

/-- The struct `PackageBuildpackFlags` (lines 16-21). -/
structure PackageBuildpackFlags where
  PackageTomlPath : String
  Format : String
  Publish : Bool
  NoPull : Bool
deriving DecidableEq, Repr

/-- The message of the error returned at line 91. -/
def conflictingFlagsMessage : String :=
  "The --publish and --no-pull flags cannot be used together. The --publish flag requires the use of remote images."

/-- The message of the error returned at line 95. -/
def missingConfigMessage : String :=
  "Please provide a package config path, using --config"

/-- The method `PackageBuildpackFlags.validate` (lines 89-98). -/
def PackageBuildpackFlags.validate (p : PackageBuildpackFlags) : Option Error :=
  if p.Publish && p.NoPull then
    some (errors.Errorf conflictingFlagsMessage)
  else if p.PackageTomlPath == "" then
    some (errors.Errorf missingConfigMessage)
  else
    none

/-! ## Collaborators -/

/-- The struct `pack.PackageBuildpackOptions` as the handler fills it (lines 55-61). -/
structure PackageBuildpackOptions (Config : Type) where
  Name : String
  Format : String
  Config : Config
  Publish : Bool
  NoPull : Bool
deriving DecidableEq, Repr

/-- The interface `PackageConfigReader` (lines 29-31): `Read` returns a config
and an error, and may change the state the collaborators own. -/
structure PackageConfigReader (σ Config : Type) where
  Read : String → σ → (Config × Option Error) × σ

/-- The interface `BuildpackPackager` (lines 24-26). -/
structure BuildpackPackager (σ Ctx Config : Type) where
  PackageBuildpack : Ctx → PackageBuildpackOptions Config → σ → Option Error × σ

/-- What the handler reads of its `*cobra.Command`: the names of the flags the
caller set explicitly, and the command's context. -/
structure Command (Ctx : Type) where
  changedFlags : List String
  ctx : Ctx

/-- The call `cmd.Flags().Changed(name)`. -/
def Command.Changed {Ctx : Type} (cmd : Command Ctx) (name : String) : Bool :=
  cmd.changedFlags.contains name

/-- The call `cmd.Context()`. -/
def Command.Context {Ctx : Type} (cmd : Command Ctx) : Ctx := cmd.ctx

/-! ## The handler -/

/-- One externally visible action of the handler. -/
inductive Event (Config : Type) where
  | Warn (msg : String)
  | Infof (msg : String)
  | Read (path : String)
  | PackageBuildpack (options : PackageBuildpackOptions Config)
deriving DecidableEq, Repr

/-- How a run of the handler ends: it returns a Go `error` (`none` is `nil`),
or the index expression `args[0]` panics. -/
inductive Outcome where
  | returned (err : Option Error)
  | panicked
deriving DecidableEq, Repr

/-- A finished run: how it ended, the collaborators' state, and what it did. -/
structure Run (σ Config : Type) where
  outcome : Outcome
  state : σ
  trace : List (Event Config)

/-- The warning logged at line 46. -/
def deprecationWarning : String :=
  "Flag --package-config has been deprecated, please use --config instead"

/-- The verb chosen at lines 65-68. -/
def action (publish : Bool) : String :=
  if publish then "published" else "created"

/-- The text `logger.Infof("Successfully %s package %s", action, style.Symbol(name))`
prints (line 70), for a given `style.Symbol`. -/
def successLine (Symbol : String → String) (publish : Bool) (name : String) : String :=
  "Successfully " ++ action publish ++ " package " ++ Symbol name

/-- The function literal of lines 40-72, the handler `PackageBuildpack` gives
to the command. -/
def PackageBuildpack.handler {σ Ctx Config : Type} (Symbol : String → String)
    (client : BuildpackPackager σ Ctx Config)
    (packageConfigReader : PackageConfigReader σ Config)
    (flags : PackageBuildpackFlags) (cmd : Command Ctx) (args : List String)
    (s : σ) : Run σ Config :=
  match flags.validate with
  | some err => ⟨.returned (some err), s, []⟩
  | none =>
    let warned : List (Event Config) :=
      if cmd.Changed "package-config" then [.Warn deprecationWarning] else []
    match packageConfigReader.Read flags.PackageTomlPath s with
    | ((_, some err), s1) =>
      ⟨.returned (some (errors.Wrap err "reading config")), s1,
        warned ++ [.Read flags.PackageTomlPath]⟩
    | ((config, none), s1) =>
      match args with
      | [] => ⟨.panicked, s1, warned ++ [.Read flags.PackageTomlPath]⟩
      | name :: _ =>
        let options : PackageBuildpackOptions Config :=
          { Name := name, Format := flags.Format, Config := config,
            Publish := flags.Publish, NoPull := flags.NoPull }
        match client.PackageBuildpack cmd.Context options s1 with
        | (some err, s2) =>
          ⟨.returned (some err), s2,
            warned ++ [.Read flags.PackageTomlPath, .PackageBuildpack options]⟩
        | (none, s2) =>
          ⟨.returned none, s2,
            warned ++ [.Read flags.PackageTomlPath, .PackageBuildpack options,
              .Infof (successLine Symbol flags.Publish name)]⟩

/-! ## Projections of a trace -/

/-- The paths `PackageConfigReader.Read` was called with, in order. -/
def readCalls {Config : Type} : List (Event Config) → List String
  | [] => []
  | .Read path :: t => path :: readCalls t
  | _ :: t => readCalls t

/-- The options `BuildpackPackager.PackageBuildpack` was called with, in order. -/
def packageCalls {Config : Type} : List (Event Config) → List (PackageBuildpackOptions Config)
  | [] => []
  | .PackageBuildpack options :: t => options :: packageCalls t
  | _ :: t => packageCalls t

/-- The collaborator calls of a trace, in order, logger lines dropped. -/
def calls {Config : Type} : List (Event Config) → List (Event Config)
  | [] => []
  | .Read path :: t => .Read path :: calls t
  | .PackageBuildpack options :: t => .PackageBuildpack options :: calls t
  | _ :: t => calls t

/-- The lines logged at info level, in order. -/
def infos {Config : Type} : List (Event Config) → List String
  | [] => []
  | .Infof msg :: t => msg :: infos t
  | _ :: t => infos t

/-- The lines logged at warning level, in order. -/
def warnings {Config : Type} : List (Event Config) → List String
  | [] => []
  | .Warn msg :: t => msg :: warnings t
  | _ :: t => warnings t

/-- What the handler has logged when it reaches the reader call (lines 45-47). -/
def warned (Config : Type) {Ctx : Type} (cmd : Command Ctx) : List (Event Config) :=
  if cmd.Changed "package-config" then [.Warn deprecationWarning] else []

/-! ## Test doubles used to instantiate the theorems -/

/-- A `style.Symbol` that puts the text between single quotes. -/
def quoteSymbol (name : String) : String := "\x27" ++ name ++ "\x27"

/-- A reader that returns the path itself as the config and counts its calls. -/
def countingReader : PackageConfigReader Nat String :=
  ⟨fun path n => ((path, none), n + 1)⟩

/-- A packager that always succeeds and counts its calls. -/
def countingClient : BuildpackPackager Nat Unit String :=
  ⟨fun _ _ n => (none, n + 1)⟩

/-- A packager that always fails with the error `boom`. -/
def failingClient : BuildpackPackager Nat Unit String :=
  ⟨fun _ _ n => (some (.fundamental "boom"), n + 1)⟩

/-! ## How the handler runs, case by case -/

section Cases

variable {σ Ctx Config : Type} (Symbol : String → String)
  (client : BuildpackPackager σ Ctx Config)
  (packageConfigReader : PackageConfigReader σ Config)
  (flags : PackageBuildpackFlags) (cmd : Command Ctx) (args : List String) (s : σ)

theorem handler_invalid {err : Error} (hv : flags.validate = some err) :
    PackageBuildpack.handler Symbol client packageConfigReader flags cmd args s
      = ⟨.returned (some err), s, []⟩ := by
  simp only [PackageBuildpack.handler, hv]

theorem handler_read_failed {config : Config} {err : Error} {s1 : σ}
    (hv : flags.validate = none)
    (hr : packageConfigReader.Read flags.PackageTomlPath s = ((config, some err), s1)) :
    PackageBuildpack.handler Symbol client packageConfigReader flags cmd args s
      = ⟨.returned (some (errors.Wrap err "reading config")), s1,
          warned Config cmd ++ [.Read flags.PackageTomlPath]⟩ := by
  simp only [PackageBuildpack.handler, hv, hr, warned]

theorem handler_no_args {config : Config} {s1 : σ}
    (hv : flags.validate = none)
    (hr : packageConfigReader.Read flags.PackageTomlPath s = ((config, none), s1)) :
    PackageBuildpack.handler Symbol client packageConfigReader flags cmd [] s
      = ⟨.panicked, s1, warned Config cmd ++ [.Read flags.PackageTomlPath]⟩ := by
  simp only [PackageBuildpack.handler, hv, hr, warned]

theorem handler_package_failed {config : Config} {err : Error} {s1 s2 : σ}
    {name : String} {rest : List String}
    (hv : flags.validate = none)
    (hr : packageConfigReader.Read flags.PackageTomlPath s = ((config, none), s1))
    (hp : client.PackageBuildpack cmd.Context
      ⟨name, flags.Format, config, flags.Publish, flags.NoPull⟩ s1 = (some err, s2)) :
    PackageBuildpack.handler Symbol client packageConfigReader flags cmd (name :: rest) s
      = ⟨.returned (some err), s2,
          warned Config cmd ++ [.Read flags.PackageTomlPath,
            .PackageBuildpack ⟨name, flags.Format, config, flags.Publish, flags.NoPull⟩]⟩ := by
  simp only [PackageBuildpack.handler, hv, hr, hp, warned]

theorem handler_packaged {config : Config} {s1 s2 : σ}
    {name : String} {rest : List String}
    (hv : flags.validate = none)
    (hr : packageConfigReader.Read flags.PackageTomlPath s = ((config, none), s1))
    (hp : client.PackageBuildpack cmd.Context
      ⟨name, flags.Format, config, flags.Publish, flags.NoPull⟩ s1 = (none, s2)) :
    PackageBuildpack.handler Symbol client packageConfigReader flags cmd (name :: rest) s
      = ⟨.returned none, s2,
          warned Config cmd ++ [.Read flags.PackageTomlPath,
            .PackageBuildpack ⟨name, flags.Format, config, flags.Publish, flags.NoPull⟩,
            .Infof (successLine Symbol flags.Publish name)]⟩ := by
  simp only [PackageBuildpack.handler, hv, hr, hp, warned]

end Cases

/-! ## The trace projections on the events logged before the reader is called -/

section Projections

variable {Config Ctx : Type} (cmd : Command Ctx) (l : List (Event Config))

theorem readCalls_warned : readCalls (warned Config cmd ++ l) = readCalls l := by
  unfold warned; split <;> simp [readCalls]

theorem packageCalls_warned : packageCalls (warned Config cmd ++ l) = packageCalls l := by
  unfold warned; split <;> simp [packageCalls]

theorem calls_warned : calls (warned Config cmd ++ l) = calls l := by
  unfold warned; split <;> simp [calls]

theorem infos_warned : infos (warned Config cmd ++ l) = infos l := by
  unfold warned; split <;> simp [infos]

theorem warnings_warned :
    warnings (warned Config cmd ++ l)
      = (if cmd.Changed "package-config" then [deprecationWarning] else []) ++ warnings l := by
  unfold warned; split <;> simp [warnings]

end Projections

/-! ## Validation -/

theorem validate_conflict (path format : String) :
    PackageBuildpackFlags.validate ⟨path, format, true, true⟩
      = some (errors.Errorf conflictingFlagsMessage) := by
  simp [PackageBuildpackFlags.validate]

theorem validate_empty_path (format : String) (publish noPull : Bool) :
    PackageBuildpackFlags.validate ⟨"", format, publish, noPull⟩
      = some (errors.Errorf
          (if publish && noPull then conflictingFlagsMessage else missingConfigMessage)) := by
  cases publish <;> cases noPull <;> simp [PackageBuildpackFlags.validate]

/-- C10: `validate` returns no error exactly when `Publish` and `NoPull` are not
both set and `PackageTomlPath` is not empty; replacing `Format` by any string
never changes its result; and with `Publish` and `NoPull` both set it returns
the conflicting-flags error whatever the path is, the empty path included. -/
theorem validate_characterisation (p : PackageBuildpackFlags) :
    (p.validate = none ↔ ¬ (p.Publish = true ∧ p.NoPull = true) ∧ p.PackageTomlPath ≠ "") ∧
    (∀ format : String, PackageBuildpackFlags.validate { p with Format := format } = p.validate) ∧
    (∀ format : String, PackageBuildpackFlags.validate ⟨"", format, true, true⟩
        = some (errors.Errorf conflictingFlagsMessage)) ∧
    (∀ path format : String, PackageBuildpackFlags.validate ⟨path, format, true, true⟩
        = some (errors.Errorf conflictingFlagsMessage)) := by
  refine ⟨?_, ?_, fun format => validate_conflict "" format, validate_conflict⟩
  · obtain ⟨path, format, publish, noPull⟩ := p
    cases publish <;> cases noPull <;> simp [PackageBuildpackFlags.validate]
  · intro format
    simp [PackageBuildpackFlags.validate]

/-! ## The handler -/

section Handler

variable {σ Ctx Config : Type} (Symbol : String → String)
  (client : BuildpackPackager σ Ctx Config)
  (packageConfigReader : PackageConfigReader σ Config)

/-- C1: with `Publish` and `NoPull` both set, whatever the path, the format,
the arguments, the reader and the packager are, the handler returns the
conflicting-flags error, leaves the collaborators' state alone, does nothing
observable, and so calls `Read` and `PackageBuildpack` zero times. -/
theorem handler_conflicting_flags (path format : String) (cmd : Command Ctx)
    (args : List String) (s : σ) :
    PackageBuildpack.handler Symbol client packageConfigReader
        ⟨path, format, true, true⟩ cmd args s
      = ⟨.returned (some (errors.Errorf conflictingFlagsMessage)), s, []⟩ ∧
    (errors.Errorf conflictingFlagsMessage).message
      = "The --publish and --no-pull flags cannot be used together. The --publish flag requires the use of remote images." ∧
    (readCalls (PackageBuildpack.handler Symbol client packageConfigReader
        ⟨path, format, true, true⟩ cmd args s).trace).length = 0 ∧
    (packageCalls (PackageBuildpack.handler Symbol client packageConfigReader
        ⟨path, format, true, true⟩ cmd args s).trace).length = 0 := by
  have h := handler_invalid Symbol client packageConfigReader ⟨path, format, true, true⟩
    cmd args s (validate_conflict path format)
  rw [h]
  exact ⟨rfl, rfl, rfl, rfl⟩

/-- C2, refuted as stated: with an empty path and `Publish` and `NoPull` both
set, validation fails with the conflicting-flags error, which is not the
missing-config error. -/
theorem validate_empty_path_conflict :
    PackageBuildpackFlags.validate ⟨"", "image", true, true⟩
      = some (errors.Errorf conflictingFlagsMessage) ∧
    PackageBuildpackFlags.validate ⟨"", "image", true, true⟩
      ≠ some (errors.Errorf missingConfigMessage) := by
  refine ⟨validate_conflict "" "image", ?_⟩
  rw [validate_conflict]
  simp [errors.Errorf, conflictingFlagsMessage, missingConfigMessage]

/-- C2, amended: with an empty path, whatever `Publish`, `NoPull` and `Format`
are, validation fails, the handler returns that error and `Read` is never
called; the error is the missing-config one (`Please provide a package config
path, using --config`) unless `Publish` and `NoPull` are both set, in which
case it is the conflicting-flags one. -/
theorem handler_empty_path (format : String) (publish noPull : Bool) (cmd : Command Ctx)
    (args : List String) (s : σ) :
    PackageBuildpackFlags.validate ⟨"", format, publish, noPull⟩
      = some (errors.Errorf
          (if publish && noPull then conflictingFlagsMessage else missingConfigMessage)) ∧
    PackageBuildpack.handler Symbol client packageConfigReader
        ⟨"", format, publish, noPull⟩ cmd args s
      = ⟨.returned (some (errors.Errorf
          (if publish && noPull then conflictingFlagsMessage else missingConfigMessage))),
          s, []⟩ ∧
    (readCalls (PackageBuildpack.handler Symbol client packageConfigReader
        ⟨"", format, publish, noPull⟩ cmd args s).trace).length = 0 ∧
    (errors.Errorf missingConfigMessage).message
      = "Please provide a package config path, using --config" := by
  have h := handler_invalid Symbol client packageConfigReader ⟨"", format, publish, noPull⟩
    cmd args s (validate_empty_path format publish noPull)
  rw [h]
  exact ⟨validate_empty_path format publish noPull, rfl, rfl, rfl⟩

/-- C4: when validation passes, `Read` succeeds and `PackageBuildpack` succeeds,
the handler returns `nil` and logs exactly one info line: `Successfully created
package ` followed by the styled name when `Publish` is false, `Successfully
published package ` followed by the styled name when it is true; when the
styled name contains the name, so does that line. -/
theorem handler_success (flags : PackageBuildpackFlags) (cmd : Command Ctx)
    (name : String) (s s1 s2 : σ) (config : Config)
    (hv : flags.validate = none)
    (hr : packageConfigReader.Read flags.PackageTomlPath s = ((config, none), s1))
    (hp : client.PackageBuildpack cmd.Context
      ⟨name, flags.Format, config, flags.Publish, flags.NoPull⟩ s1 = (none, s2)) :
    (PackageBuildpack.handler Symbol client packageConfigReader flags cmd [name] s).outcome
      = .returned none ∧
    infos (PackageBuildpack.handler Symbol client packageConfigReader flags cmd [name] s).trace
      = [(if flags.Publish then "Successfully published package "
          else "Successfully created package ") ++ Symbol name] ∧
    (∀ before after : String, Symbol name = before ++ name ++ after →
      infos (PackageBuildpack.handler Symbol client packageConfigReader flags cmd [name] s).trace
        = [(if flags.Publish then "Successfully published package "
            else "Successfully created package ") ++ before ++ name ++ after]) := by
  rw [handler_packaged Symbol client packageConfigReader flags cmd s hv hr hp]
  have hline : successLine Symbol flags.Publish name
      = (if flags.Publish then "Successfully published package "
          else "Successfully created package ") ++ Symbol name := by
    cases flags.Publish <;> rfl
  refine ⟨rfl, ?_, ?_⟩
  · simp [infos_warned, infos, hline]
  · intro before after hsym
    simp [infos_warned, infos, hline, hsym, String.append_assoc]

/-- C5: when validation passes and `Read` returns the config `c` without error,
the handler calls `Read` once, with the path of the flags, and then
`PackageBuildpack` once, with the options made of the positional argument, the
format string as it is, `c`, and the two boolean flags, whatever the packager
then returns. -/
theorem handler_calls (flags : PackageBuildpackFlags) (cmd : Command Ctx)
    (name : String) (s s1 : σ) (c : Config)
    (hv : flags.validate = none)
    (hr : packageConfigReader.Read flags.PackageTomlPath s = ((c, none), s1)) :
    calls (PackageBuildpack.handler Symbol client packageConfigReader flags cmd [name] s).trace
      = [.Read flags.PackageTomlPath,
          .PackageBuildpack ⟨name, flags.Format, c, flags.Publish, flags.NoPull⟩] ∧
    readCalls
        (PackageBuildpack.handler Symbol client packageConfigReader flags cmd [name] s).trace
      = [flags.PackageTomlPath] ∧
    packageCalls
        (PackageBuildpack.handler Symbol client packageConfigReader flags cmd [name] s).trace
      = [⟨name, flags.Format, c, flags.Publish, flags.NoPull⟩] := by
  rcases hp : client.PackageBuildpack cmd.Context
      ⟨name, flags.Format, c, flags.Publish, flags.NoPull⟩ s1 with ⟨_ | err, s2⟩
  · rw [handler_packaged Symbol client packageConfigReader flags cmd s hv hr hp]
    simp [calls_warned, readCalls_warned, packageCalls_warned, calls, readCalls, packageCalls]
  · rw [handler_package_failed Symbol client packageConfigReader flags cmd s hv hr hp]
    simp [calls_warned, readCalls_warned, packageCalls_warned, calls, readCalls, packageCalls]

/-- C6, refuted as stated: with a reader that succeeds and a packager that
fails with the error `boom`, the handler returns `boom` itself, which is not
`boom` wrapped with any context. -/
theorem handler_package_error_not_wrapped :
    (PackageBuildpack.handler quoteSymbol failingClient countingReader
        ⟨"pkg.toml", "", false, false⟩ ⟨[], ()⟩ ["mybp"] 0).outcome
      = .returned (some (.fundamental "boom")) ∧
    ¬ ∃ context : String,
      (PackageBuildpack.handler quoteSymbol failingClient countingReader
          ⟨"pkg.toml", "", false, false⟩ ⟨[], ()⟩ ["mybp"] 0).outcome
        = .returned (some (errors.Wrap (.fundamental "boom") context)) := by
  have h : (PackageBuildpack.handler quoteSymbol failingClient countingReader
        ⟨"pkg.toml", "", false, false⟩ ⟨[], ()⟩ ["mybp"] 0).outcome
      = .returned (some (.fundamental "boom")) := by
    rw [handler_package_failed quoteSymbol failingClient countingReader
      ⟨"pkg.toml", "", false, false⟩ ⟨[], ()⟩ 0
      (by simp [PackageBuildpackFlags.validate]) rfl rfl]
  refine ⟨h, ?_⟩
  rintro ⟨context, hc⟩
  rw [h] at hc
  simp [errors.Wrap] at hc

/-- C6, amended: when validation passes, `Read` succeeds and `PackageBuildpack`
returns an error `e`, the handler returns `e` itself, unchanged and with no
context added, and logs no success line. -/
theorem handler_package_error (flags : PackageBuildpackFlags) (cmd : Command Ctx)
    (name : String) (s s1 s2 : σ) (config : Config) (e : Error)
    (hv : flags.validate = none)
    (hr : packageConfigReader.Read flags.PackageTomlPath s = ((config, none), s1))
    (hp : client.PackageBuildpack cmd.Context
      ⟨name, flags.Format, config, flags.Publish, flags.NoPull⟩ s1 = (some e, s2)) :
    (PackageBuildpack.handler Symbol client packageConfigReader flags cmd [name] s).outcome
      = .returned (some e) ∧
    infos (PackageBuildpack.handler Symbol client packageConfigReader flags cmd [name] s).trace
      = [] := by
  rw [handler_package_failed Symbol client packageConfigReader flags cmd s hv hr hp]
  exact ⟨rfl, by simp [infos_warned, infos]⟩

/-- C7: take two runs on the same flags, arguments, collaborators and state,
one whose command has the legacy flag `package-config` marked as set and one
whose command has not. They end the same way, leave the same state, make the
same collaborator calls in the same order and log the same info lines; when
validation passes each of them calls `Read` exactly once, with the path of the
flags, and the first logs the deprecation warning once (when it fails neither
calls `Read` nor logs a warning); the second logs no warning, and the trace of
the first is the trace of the second with, when validation passes, the
deprecation warning in front. -/
theorem handler_alias_same_run (flags : PackageBuildpackFlags) (legacy current : Command Ctx)
    (args : List String) (s : σ)
    (hctx : legacy.Context = current.Context)
    (hl : legacy.Changed "package-config" = true)
    (hc : current.Changed "package-config" = false) :
    (PackageBuildpack.handler Symbol client packageConfigReader flags legacy args s).outcome
      = (PackageBuildpack.handler Symbol client packageConfigReader flags current args s).outcome ∧
    (PackageBuildpack.handler Symbol client packageConfigReader flags legacy args s).state
      = (PackageBuildpack.handler Symbol client packageConfigReader flags current args s).state ∧
    calls (PackageBuildpack.handler Symbol client packageConfigReader flags legacy args s).trace
      = calls
          (PackageBuildpack.handler Symbol client packageConfigReader flags current args s).trace ∧
    infos (PackageBuildpack.handler Symbol client packageConfigReader flags legacy args s).trace
      = infos
          (PackageBuildpack.handler Symbol client packageConfigReader flags current args s).trace ∧
    readCalls
        (PackageBuildpack.handler Symbol client packageConfigReader flags legacy args s).trace
      = (if flags.validate.isNone then [flags.PackageTomlPath] else []) ∧
    readCalls
        (PackageBuildpack.handler Symbol client packageConfigReader flags current args s).trace
      = (if flags.validate.isNone then [flags.PackageTomlPath] else []) ∧
    warnings
        (PackageBuildpack.handler Symbol client packageConfigReader flags legacy args s).trace
      = (if flags.validate.isNone then [deprecationWarning] else []) ∧
    warnings
        (PackageBuildpack.handler Symbol client packageConfigReader flags current args s).trace
      = [] ∧
    (PackageBuildpack.handler Symbol client packageConfigReader flags legacy args s).trace
      = (if flags.validate.isNone then [Event.Warn deprecationWarning] else [])
        ++ (PackageBuildpack.handler Symbol client packageConfigReader flags current args s).trace
    := by
  have wl : warned Config legacy = [Event.Warn deprecationWarning] := by simp [warned, hl]
  have wc : warned Config current = [] := by simp [warned, hc]
  cases hv : flags.validate with
  | some err =>
    rw [handler_invalid Symbol client packageConfigReader flags legacy args s hv,
      handler_invalid Symbol client packageConfigReader flags current args s hv]
    simp [warnings, readCalls]
  | none =>
    rcases hr : packageConfigReader.Read flags.PackageTomlPath s with ⟨⟨config, _ | err⟩, s1⟩
    · cases args with
      | nil =>
        rw [handler_no_args Symbol client packageConfigReader flags legacy s hv hr,
          handler_no_args Symbol client packageConfigReader flags current s hv hr, wl, wc]
        simp [calls, infos, warnings, readCalls]
      | cons name rest =>
        rcases hp : client.PackageBuildpack current.Context
            ⟨name, flags.Format, config, flags.Publish, flags.NoPull⟩ s1 with ⟨_ | err, s2⟩
        · have hp2 := hp
          rw [← hctx] at hp2
          rw [handler_packaged Symbol client packageConfigReader flags legacy s hv hr hp2,
            handler_packaged Symbol client packageConfigReader flags current s hv hr hp, wl, wc]
          simp [calls, infos, warnings, readCalls]
        · have hp2 := hp
          rw [← hctx] at hp2
          rw [handler_package_failed Symbol client packageConfigReader flags legacy s hv hr hp2,
            handler_package_failed Symbol client packageConfigReader flags current s hv hr hp,
            wl, wc]
          simp [calls, infos, warnings, readCalls]
    · rw [handler_read_failed Symbol client packageConfigReader flags legacy args s hv hr,
        handler_read_failed Symbol client packageConfigReader flags current args s hv hr, wl, wc]
      simp [calls, infos, warnings, readCalls]

/-- C8, refuted as stated: with the legacy flag `package-config` marked as set
and `Publish` and `NoPull` both set, the handler logs no warning at all. -/
theorem handler_no_warning_when_invalid :
    (⟨["package-config"], ()⟩ : Command Unit).Changed "package-config" = true ∧
    deprecationWarning ∉ warnings
      (PackageBuildpack.handler quoteSymbol countingClient countingReader
        ⟨"pkg.toml", "", true, true⟩ ⟨["package-config"], ()⟩ ["mybp"] 0).trace := by
  refine ⟨by simp [Command.Changed], ?_⟩
  rw [handler_invalid quoteSymbol countingClient countingReader ⟨"pkg.toml", "", true, true⟩
    ⟨["package-config"], ()⟩ ["mybp"] 0 (validate_conflict "pkg.toml" "")]
  simp [warnings]

/-- C8, amended: when the legacy flag `package-config` is marked as set, the
handler logs the deprecation warning, once, exactly when validation passes,
whatever the reader and the packager then do; when validation fails it logs no
warning. -/
theorem handler_deprecation_warning (flags : PackageBuildpackFlags) (cmd : Command Ctx)
    (args : List String) (s : σ)
    (hc : cmd.Changed "package-config" = true) :
    warnings (PackageBuildpack.handler Symbol client packageConfigReader flags cmd args s).trace
      = (if flags.validate.isNone then
          ["Flag --package-config has been deprecated, please use --config instead"]
        else []) := by
  have wc : warned Config cmd = [Event.Warn deprecationWarning] := by simp [warned, hc]
  cases hv : flags.validate with
  | some err =>
    rw [handler_invalid Symbol client packageConfigReader flags cmd args s hv]
    simp [warnings]
  | none =>
    rcases hr : packageConfigReader.Read flags.PackageTomlPath s with ⟨⟨config, _ | err⟩, s1⟩
    · cases args with
      | nil =>
        rw [handler_no_args Symbol client packageConfigReader flags cmd s hv hr, wc]
        simp [warnings, deprecationWarning]
      | cons name rest =>
        rcases hp : client.PackageBuildpack cmd.Context
            ⟨name, flags.Format, config, flags.Publish, flags.NoPull⟩ s1 with ⟨_ | err, s2⟩
        · rw [handler_packaged Symbol client packageConfigReader flags cmd s hv hr hp, wc]
          simp [warnings, deprecationWarning]
        · rw [handler_package_failed Symbol client packageConfigReader flags cmd s hv hr hp, wc]
          simp [warnings, deprecationWarning]
    · rw [handler_read_failed Symbol client packageConfigReader flags cmd args s hv hr, wc]
      simp [warnings, deprecationWarning]

/-- C9: every run of the handler either returns `nil` and has logged exactly
one info line, the success line for its first argument, or does not return
`nil` (it returns an error, or `args[0]` panics) and has logged no info line. -/
theorem handler_success_line_iff (flags : PackageBuildpackFlags) (cmd : Command Ctx)
    (args : List String) (s : σ) :
    ((PackageBuildpack.handler Symbol client packageConfigReader flags cmd args s).outcome
        = .returned none ∧
      ∃ name : String, args.head? = some name ∧
        infos (PackageBuildpack.handler Symbol client packageConfigReader flags cmd args s).trace
          = ["Successfully " ++ action flags.Publish ++ " package " ++ Symbol name]) ∨
    ((PackageBuildpack.handler Symbol client packageConfigReader flags cmd args s).outcome
        ≠ .returned none ∧
      infos (PackageBuildpack.handler Symbol client packageConfigReader flags cmd args s).trace
        = []) := by
  cases hv : flags.validate with
  | some err =>
    rw [handler_invalid Symbol client packageConfigReader flags cmd args s hv]
    exact Or.inr ⟨by simp, rfl⟩
  | none =>
    rcases hr : packageConfigReader.Read flags.PackageTomlPath s with ⟨⟨config, _ | err⟩, s1⟩
    · cases args with
      | nil =>
        rw [handler_no_args Symbol client packageConfigReader flags cmd s hv hr]
        exact Or.inr ⟨by simp, by simp [infos_warned, infos]⟩
      | cons name rest =>
        rcases hp : client.PackageBuildpack cmd.Context
            ⟨name, flags.Format, config, flags.Publish, flags.NoPull⟩ s1 with ⟨_ | err, s2⟩
        · rw [handler_packaged Symbol client packageConfigReader flags cmd s hv hr hp]
          exact Or.inl ⟨rfl, name, rfl, by simp [infos_warned, infos, successLine]⟩
        · rw [handler_package_failed Symbol client packageConfigReader flags cmd s hv hr hp]
          exact Or.inr ⟨by simp, by simp [infos_warned, infos]⟩
    · rw [handler_read_failed Symbol client packageConfigReader flags cmd args s hv hr]
      exact Or.inr ⟨by simp, by simp [infos_warned, infos]⟩

end Handler

/-! ## The theorems at concrete inputs -/

/-- C4 at a concrete input: the request `mybp`, `pkg.toml`, no format, no flag set. -/
theorem handler_success_witness :
    (PackageBuildpack.handler quoteSymbol countingClient countingReader
        ⟨"pkg.toml", "", false, false⟩ ⟨[], ()⟩ ["mybp"] 0).outcome = .returned none ∧
    infos (PackageBuildpack.handler quoteSymbol countingClient countingReader
        ⟨"pkg.toml", "", false, false⟩ ⟨[], ()⟩ ["mybp"] 0).trace
      = ["Successfully created package \x27mybp\x27"] :=
  have h := handler_success quoteSymbol countingClient countingReader
    ⟨"pkg.toml", "", false, false⟩ ⟨[], ()⟩ "mybp" 0 1 2 "pkg.toml"
    (by simp [PackageBuildpackFlags.validate]) rfl rfl
  ⟨h.1, h.2.2 "\x27" "\x27" rfl⟩

/-- C5 at a concrete input: a format that is neither `image` nor `file`, a packager that fails. -/
theorem handler_calls_witness :
    calls (PackageBuildpack.handler quoteSymbol failingClient countingReader
        ⟨"pkg.toml", "tarball", true, false⟩ ⟨["config"], ()⟩ ["mybp"] 0).trace
      = [.Read "pkg.toml", .PackageBuildpack ⟨"mybp", "tarball", "pkg.toml", true, false⟩] :=
  (handler_calls quoteSymbol failingClient countingReader
    ⟨"pkg.toml", "tarball", true, false⟩ ⟨["config"], ()⟩ "mybp" 0 1 "pkg.toml"
    (by simp [PackageBuildpackFlags.validate]) rfl).1

/-- C6 as amended, at a concrete input: a packager that fails with `boom`. -/
theorem handler_package_error_witness :
    (PackageBuildpack.handler quoteSymbol failingClient countingReader
        ⟨"pkg.toml", "file", false, true⟩ ⟨["config"], ()⟩ ["mybp"] 0).outcome
      = .returned (some (.fundamental "boom")) ∧
    infos (PackageBuildpack.handler quoteSymbol failingClient countingReader
        ⟨"pkg.toml", "file", false, true⟩ ⟨["config"], ()⟩ ["mybp"] 0).trace = [] :=
  handler_package_error quoteSymbol failingClient countingReader
    ⟨"pkg.toml", "file", false, true⟩ ⟨["config"], ()⟩ "mybp" 0 1 2 "pkg.toml"
    (.fundamental "boom") (by simp [PackageBuildpackFlags.validate]) rfl rfl

/-- C7 at a concrete input: the same request through `package-config` and through `config`. -/
theorem handler_alias_same_run_witness :
    (PackageBuildpack.handler quoteSymbol countingClient countingReader
        ⟨"pkg.toml", "image", true, false⟩ ⟨["package-config"], ()⟩ ["mybp"] 0).outcome
      = (PackageBuildpack.handler quoteSymbol countingClient countingReader
        ⟨"pkg.toml", "image", true, false⟩ ⟨["config"], ()⟩ ["mybp"] 0).outcome ∧
    (PackageBuildpack.handler quoteSymbol countingClient countingReader
        ⟨"pkg.toml", "image", true, false⟩ ⟨["package-config"], ()⟩ ["mybp"] 0).trace
      = [Event.Warn deprecationWarning]
        ++ (PackageBuildpack.handler quoteSymbol countingClient countingReader
          ⟨"pkg.toml", "image", true, false⟩ ⟨["config"], ()⟩ ["mybp"] 0).trace ∧
    readCalls (PackageBuildpack.handler quoteSymbol countingClient countingReader
        ⟨"pkg.toml", "image", true, false⟩ ⟨["package-config"], ()⟩ ["mybp"] 0).trace
      = ["pkg.toml"] ∧
    warnings (PackageBuildpack.handler quoteSymbol countingClient countingReader
        ⟨"pkg.toml", "image", true, false⟩ ⟨["package-config"], ()⟩ ["mybp"] 0).trace
      = [deprecationWarning] :=
  have h := handler_alias_same_run quoteSymbol countingClient countingReader
    ⟨"pkg.toml", "image", true, false⟩ ⟨["package-config"], ()⟩ ⟨["config"], ()⟩ ["mybp"] 0
    rfl (by simp [Command.Changed]) (by simp [Command.Changed])
  ⟨h.1, h.2.2.2.2.2.2.2.2, h.2.2.2.2.1, h.2.2.2.2.2.2.1⟩

/-- C8 as amended, at a concrete input: the legacy flag set on a valid request. -/
theorem handler_deprecation_warning_witness :
    warnings (PackageBuildpack.handler quoteSymbol failingClient countingReader
        ⟨"pkg.toml", "", false, false⟩ ⟨["package-config"], ()⟩ ["mybp"] 0).trace
      = ["Flag --package-config has been deprecated, please use --config instead"] :=
  handler_deprecation_warning quoteSymbol failingClient countingReader
    ⟨"pkg.toml", "", false, false⟩ ⟨["package-config"], ()⟩ ["mybp"] 0
    (by simp [Command.Changed])

end Commands
